import Mathlib

/-!
Verification of the lambda_search_initializer repository against its
specification.  Python values flowing through the handler are modelled by a
JSON-like value type; Python dictionaries become association lists with
first-match lookup; fallible Python code returns Except; standard-library
calls whose behaviour the claims do not depend on (json.loads, json.dumps,
base64 decoding) are supplied as explicit function parameters.
-/

/-- Model of a Python/JSON value as it occurs in the handler code paths:
None, bool, int, str, list, dict (string keys, insertion ordered). -/
inductive JValue where
  | null
  | bool (b : Bool)
  | int (n : Int)
  | str (s : String)
  | arr (xs : List JValue)
  | obj (fields : List (String × JValue))

/-- First-match lookup in an association list, modelling Python dict
subscripting and membership tests (dict keys are unique, so first match is
the only match on faithfully built dictionaries). -/
def pyGet {α : Type} : List (String × α) → String → Option α
  | [], _ => none
  | kv :: rest, k => if kv.1 = k then some kv.2 else pyGet rest k

/-- Python dict item assignment d[k] = v: overwrite in place when the key is
present, append otherwise. -/
def pySetItem (d : List (String × JValue)) (k : String) (v : JValue) :
    List (String × JValue) :=
  if (pyGet d k).isSome then
    d.map (fun kv => if kv.1 = k then (k, v) else kv)
  else d ++ [(k, v)]

/-- Python truthiness of the modelled values: None, False, 0, empty string,
empty list and empty dict are falsy, everything else is truthy. -/
def pyTruthy : JValue → Bool
  | .null => false
  | .bool b => b
  | .int n => n != 0
  | .str s => !s.isEmpty
  | .arr xs => !xs.isEmpty
  | .obj fs => !fs.isEmpty

/-- ASCII whitespace stripped by Python str.strip() with no argument
(str.strip also strips other Unicode whitespace; the development only relies
on the ASCII range). -/
def pyIsSpace (c : Char) : Bool :=
  c = ' ' || c = '\t' || c = '\n' || c = '\r' || c = '\x0b' || c = '\x0c'

/-- Python str.strip(): drop leading and trailing whitespace. -/
def pyStrip (s : String) : String :=
  String.mk (((s.toList.dropWhile pyIsSpace).reverse.dropWhile pyIsSpace).reverse)

/-- The non-ASCII code points below U+0100 on which CPython str.isalnum is
true: the Latin-1 letters and numeric characters U+00AA, U+00B2, U+00B3,
U+00B5, U+00B9, U+00BA, U+00BC-U+00BE, U+00C0-U+00D6, U+00D8-U+00F6 and
U+00F8-U+00FF.  Together with the ASCII alphanumerics this models
str.isalnum exactly for code points below U+0100; code points at or above
U+0100 are treated as non-alphanumeric, and no theorem below depends on the
behaviour in that range. -/
def pyLatin1Alnum (n : Nat) : Bool :=
  decide (n = 0xAA) || decide (n = 0xB2) || decide (n = 0xB3)
  || decide (n = 0xB5) || decide (n = 0xB9) || decide (n = 0xBA)
  || decide (0xBC ≤ n ∧ n ≤ 0xBE)
  || decide (0xC0 ≤ n ∧ n ≤ 0xD6)
  || decide (0xD8 ≤ n ∧ n ≤ 0xF6)
  || decide (0xF8 ≤ n ∧ n ≤ 0xFF)

/-- See the documentation of pyLatin1Alnum above: CPython str.isalnum on one
character, split as ASCII alphanumeric or Latin-1 alphanumeric. -/
def pyIsAlnum (c : Char) : Bool :=
  c.isAlphanum || pyLatin1Alnum c.toNat

/-- Python str() of a scalar value (None, bool, int render as in CPython;
a string renders as itself).  Containers are rendered in Python repr style
below; no theorem depends on the container rendering. -/
def pyStrScalar : JValue → Option String
  | .null => some "None"
  | .bool true => some "True"
  | .bool false => some "False"
  | .int n => some (toString n)
  | .str s => some s
  | _ => none

mutual

/-- Python repr-style rendering of a value, used by str() for list and dict
members.  String escaping inside containers is not modelled (plain single
quotes are emitted); no theorem depends on container rendering. -/
def pyRepr : JValue → String
  | .null => "None"
  | .bool true => "True"
  | .bool false => "False"
  | .int n => toString n
  | .str s => "\x27" ++ s ++ "\x27"
  | .arr xs => "[" ++ pyReprElems xs ++ "]"
  | .obj fs => "\x7b" ++ pyReprFields fs ++ "\x7d"

/-- Comma-separated reprs of the elements of a Python list. -/
def pyReprElems : List JValue → String
  | [] => ""
  | [x] => pyRepr x
  | x :: y :: xs => pyRepr x ++ ", " ++ pyReprElems (y :: xs)

/-- Comma-separated key: value reprs of the items of a Python dict. -/
def pyReprFields : List (String × JValue) → String
  | [] => ""
  | [kv] => "\x27" ++ kv.1 ++ "\x27: " ++ pyRepr kv.2
  | kv :: kv2 :: kvs =>
      "\x27" ++ kv.1 ++ "\x27: " ++ pyRepr kv.2 ++ ", " ++ pyReprFields (kv2 :: kvs)

end

/-- Python str() over the modelled values: identity on strings, CPython
rendering of None, bools and ints, repr-style rendering of containers. -/
def pyStr (v : JValue) : String :=
  match pyStrScalar v with
  | some s => s
  | none => pyRepr v

/-- Exceptions escaping the modelled Python code.  RequestValidationError,
ConfigurationError and WorkflowStartError are the classes the repository
defines; every other raised exception (AttributeError, TypeError, decoding
errors, boto client faults) is collapsed into the other constructor. -/
inductive PyErr where
  | validation (msg : String)
  | configuration (msg : String)
  | workflowStart (msg : String)
  | other (msg : String)

/-- Standard-library functions the handler calls whose exact behaviour the
claims do not constrain: json.loads (none models json.JSONDecodeError),
base64.b64decode followed by bytes.decode utf-8 (error models any raised
binascii.Error or UnicodeDecodeError), and json.dumps. -/
structure PyEnv where
  jsonLoads : String → Option JValue
  b64decodeUtf8 : String → Except String String
  jsonDumps : JValue → String

/- ===== src/utils.py ===== -/

/-- Python string slicing s[:n]: the first n characters (code points). -/
def strTake (s : String) (n : Nat) : String := String.mk (s.toList.take n)

/-- Embedding of utils.build_execution_name: truncate user_id to 20
characters, keep only characters accepted by str.isalnum plus dash and
underscore, and join the prefix argument, the first 8 characters of
search_id and the sanitized user id with dashes. -/
def build_execution_name (pfx : String) (search_id : String) (user_id : String) :
    String :=
  let truncated_user_id := if user_id.length > 20 then strTake user_id 20 else user_id
  let safe_user_id :=
    String.mk (truncated_user_id.toList.filter
      (fun c => pyIsAlnum c || c = '-' || c = '_'))
  pfx ++ "-" ++ strTake search_id 8 ++ "-" ++ safe_user_id

/- ===== src/config.py ===== -/

/-- Embedding of the Config dataclass.  The Python field names are
state_machine_arn, execution_name_prefix and cors_allowed_origin; the last
two are renamed to camel case here. -/
structure Config where
  state_machine_arn : String
  executionNamePrefix : String
  corsAllowedOrigin : String

/-- os.getenv(k, d) over an explicit environment association list. -/
def pyGetenv (env : List (String × String)) (k : String) (d : String) : String :=
  (pyGet env k).getD d

/-- Embedding of Config.load: read the mandatory state machine identifier,
strip it, raise ConfigurationError when the stripped value is empty, and
otherwise build a Config whose remaining fields take their environment
values or the documented defaults. -/
def Config.load (env : List (String × String)) : Except PyErr Config :=
  if pyStrip (pyGetenv env "LOGICAL_SEARCH_STATE_MACHINE_ARN" "") = "" then
    .error (.configuration
      "LOGICAL_SEARCH_STATE_MACHINE_ARN environment variable is required")
  else
    .ok ⟨pyStrip (pyGetenv env "LOGICAL_SEARCH_STATE_MACHINE_ARN" ""),
      pyGetenv env "EXECUTION_NAME_PREFIX" "search-exec",
      pyGetenv env "CORS_ALLOWED_ORIGIN" "*"⟩

/- ===== src/request_parser.py ===== -/

/-- Embedding of the SearchExecutionRequest dataclass.  The user_id field is
annotated str in the source but Python does not enforce the annotation: the
authorizer path stores whatever truthy value the authorizer context held, so
the field is modelled as a JValue. -/
structure SearchExecutionRequest where
  search_id : String
  user_id : JValue
  query : String
  flags : List (String × JValue)
  initiated_at : String

/-- Embedding of SearchExecutionRequest.to_stepfunctions_input. -/
def SearchExecutionRequest.to_stepfunctions_input (r : SearchExecutionRequest) :
    List (String × JValue) :=
  [("searchId", .str r.search_id), ("userId", r.user_id),
   ("query", .str r.query), ("flags", .obj r.flags),
   ("initiatedAt", .str r.initiated_at)]

/-- Embedding of request_parser._require_non_empty_string: payload.get
returns None both when the key is absent and when its value is None, so both
raise the is-required error; otherwise str() and strip() the value and raise
the cannot-be-empty error when the result is empty. -/
def require_non_empty_string (payload : List (String × JValue))
    (field_name : String) : Except PyErr String :=
  match pyGet payload field_name with
  | none => .error (.validation (field_name ++ " is required"))
  | some .null => .error (.validation (field_name ++ " is required"))
  | some v =>
      if pyStrip (pyStr v) = "" then
        .error (.validation (field_name ++ " cannot be empty"))
      else .ok (pyStrip (pyStr v))

/-- The string branch of request_parser._extract_body: strip the body text,
treat a blank result as an empty dict, otherwise json.loads it and convert a
decode failure into the valid-JSON validation error.  Factored out of
extract_body because the base64 branch re-enters it on the decoded text. -/
def parseBodyStr (px : PyEnv) (s : String) : Except PyErr JValue :=
  let s := pyStrip s
  if s = "" then .ok (.obj [])
  else
    match px.jsonLoads s with
    | some v => .ok v
    | none => .error (.validation "Request body must be valid JSON")

/-- Embedding of request_parser._extract_body: reject non-dict events,
return a copy of the event itself when no body key is present, base64-decode
a flagged string body, parse a string body, pass a dict body through, and
reject anything else as an unsupported body format.  A base64 decoding
failure raises a non-validation exception, modelled by PyErr.other. -/
def extract_body (px : PyEnv) (event : JValue) : Except PyErr JValue :=
  match event with
  | .obj fields =>
      if (pyGet fields "body").isNone then .ok (.obj fields)
      else
        let body0 := (pyGet fields "body").getD (.str "")
        let decoded : Except PyErr JValue :=
          if pyTruthy ((pyGet fields "isBase64Encoded").getD .null) then
            match body0 with
            | .str s =>
                match px.b64decodeUtf8 s with
                | .ok t => .ok (.str t)
                | .error m => .error (.other m)
            | v => .ok v
          else .ok body0
        match decoded with
        | .error e => .error e
        | .ok (.str s) => parseBodyStr px s
        | .ok (.obj fs) => .ok (.obj fs)
        | .ok _ => .error (.validation "Unsupported request body format")
  | _ => .error (.validation "Event payload must be a JSON object")

/-- The default flag values of request_parser.parse_event. -/
def default_flags : List (String × JValue) :=
  [("hyde_provider", .str "groq_llama"),
   ("description_provider", .str "groq_llama"),
   ("reasoning_model", .str "groq_llama"),
   ("alternative_skills", .bool false),
   ("reasoning", .bool false),
   ("fallback", .bool false)]

/-- Python dict merge of d and f as written with double-star unpacking:
keys of d keep their positions, overridden by the value in f when f has the
key; keys of f absent from d are appended in order. -/
def pyMergeDicts (d f : List (String × JValue)) : List (String × JValue) :=
  (d.map (fun kv => (kv.1, (pyGet f kv.1).getD kv.2)))
    ++ f.filter (fun kv => (pyGet d kv.1).isNone)

/-- The authorizer chain of parse_event: when the event has a requestContext
key, evaluate event.get, then .get on the result with default empty dicts,
raising AttributeError (a non-validation exception) when an intermediate
value is not a dict; when the key is absent the chain is skipped and the
user id stays None. -/
def authorizer_user_id (eventFields : List (String × JValue)) :
    Except PyErr JValue :=
  if (pyGet eventFields "requestContext").isSome then
    match (pyGet eventFields "requestContext").getD (.obj []) with
    | .obj rcFields =>
        match (pyGet rcFields "authorizer").getD (.obj []) with
        | .obj authFields => .ok ((pyGet authFields "userId").getD .null)
        | _ => .error (.other "AttributeError: object has no attribute get")
    | _ => .error (.other "AttributeError: object has no attribute get")
  else .ok .null

/-- The user-id resolution of parse_event: keep a truthy authorizer value
unchanged, otherwise validate the userId field of the body. -/
def resolve_user_id (bodyFields : List (String × JValue)) (uidRaw : JValue) :
    Except PyErr JValue :=
  if pyTruthy uidRaw then .ok uidRaw
  else
    match require_non_empty_string bodyFields "userId" with
    | .ok s => .ok (.str s)
    | .error e => .error e

/-- Embedding of request_parser.parse_event.  The fresh uuid4 search id and
the current UTC timestamp are side effects in the source and are passed in
explicitly here; config is accepted and unused, as in the source.  Attribute
and type errors raised by using a non-dict body or a non-mapping flags value
are collapsed into PyErr.other. -/
def parse_event (px : PyEnv) (config : Config) (search_id : String)
    (initiated_at : String) (event : JValue) :
    Except PyErr SearchExecutionRequest :=
  match extract_body px event with
  | .error e => .error e
  | .ok body =>
      match event with
      | .obj eventFields =>
          match authorizer_user_id eventFields with
          | .error e => .error e
          | .ok uidRaw =>
              match body with
              | .obj bodyFields =>
                  match resolve_user_id bodyFields uidRaw with
                  | .error e => .error e
                  | .ok uid =>
                      match require_non_empty_string bodyFields "query" with
                      | .error e => .error e
                      | .ok query =>
                          match (pyGet bodyFields "flags").getD (.obj []) with
                          | .obj fs =>
                              .ok ⟨search_id, uid, query,
                                pyMergeDicts default_flags fs, initiated_at⟩
                          | _ => .error (.other
                              "TypeError: argument after double-star must be a mapping")
              | _ => .error (.other "AttributeError: object has no attribute get")
      | _ => .error (.other "unreachable: extract_body accepts only dict events")

/- ===== src/stepfunctions_client.py ===== -/

/-- Embedding of StepFunctionsExecutor: the configuration plus the boto3
stepfunctions client, modelled as a function from the keyword-argument dict
of start_execution to either a response dict or the message of a raised
ClientError or BotoCoreError. -/
structure StepFunctionsExecutor where
  config : Config
  client : List (String × JValue) → Except String (List (String × JValue))

/-- The keyword-argument dict StepFunctionsExecutor.start_execution passes
to the client call: the target state machine, the derived execution name,
the serialized execution input, and the trace header when one is present
and truthy (a non-empty string). -/
def sfParams (px : PyEnv) (e : StepFunctionsExecutor)
    (execution_request : SearchExecutionRequest) (uid : String)
    (trace_header : Option String) : List (String × JValue) :=
  let execution_input := execution_request.to_stepfunctions_input
  let execution_name :=
    build_execution_name e.config.executionNamePrefix
      execution_request.search_id uid
  let params : List (String × JValue) :=
    [("stateMachineArn", .str e.config.state_machine_arn),
     ("name", .str execution_name),
     ("input", .str (px.jsonDumps (.obj execution_input)))]
  match trace_header with
  | some th => if th = "" then params else pySetItem params "traceHeader" (.str th)
  | none => params

/-- Embedding of StepFunctionsExecutor.start_execution: assemble the call
parameters via sfParams, invoke the client, wrap client failures in
WorkflowStartError, and overwrite the executionName key of the response
with the derived deterministic name.  A request whose user_id is not a
string would make the Python len() call in build_execution_name raise
TypeError, modelled by PyErr.other. -/
def StepFunctionsExecutor.start_execution (px : PyEnv)
    (e : StepFunctionsExecutor) (execution_request : SearchExecutionRequest)
    (trace_header : Option String) :
    Except PyErr (List (String × JValue)) :=
  match execution_request.user_id with
  | .str uid =>
      match e.client (sfParams px e execution_request uid trace_header) with
      | .error m => .error (.workflowStart m)
      | .ok response =>
          .ok (pySetItem response "executionName"
            (.str (build_execution_name e.config.executionNamePrefix
              execution_request.search_id uid)))
  | _ => .error (.other "TypeError: object of type int has no len")

/- ===== src/lambda_handler.py (legacy MongoDB variant) ===== -/

/-- An HTTP-style handler response.  The body that the source passes through
json.dumps is kept as the structured value; the legacy error responses carry
no headers key, hence the Option. -/
structure HttpResponse where
  statusCode : Int
  headers : Option (List (String × String))
  body : JValue

/-- The collaborators and ambient effects of the legacy handler: json.loads
for string bodies, the MongoDB insert outcome, the Step Functions
start_execution outcome, the STATE_MACHINE_ARN environment value, the fresh
uuid4 and the current timestamps. -/
structure LegacyEnv where
  jsonLoads : String → Option JValue
  dbInsert : Except String Unit
  sfStart : Except String (List (String × JValue))
  arn : Option String
  uuid : String
  now : String

/-- Result of one legacy handler invocation, instrumented with whether the
document insert and the Step Functions start call were reached, and with the
userId field of the Step Functions input when dispatch happened. -/
structure LegacyOutcome where
  response : HttpResponse
  dbCalled : Bool
  sfCalled : Bool
  sfInputUserId : Option JValue

/-- The tail of the legacy handler after validation has passed: insert the
initial search document, then start the Step Functions execution when the
state machine identifier is truthy, mapping each failure to the 500 response
the source builds, and finally build the 200 response with CORS headers. -/
def legacy_after_validation (env : LegacyEnv) (user_id : JValue)
    (query : JValue) (final_flags : List (String × JValue)) : LegacyOutcome :=
  let search_id := env.uuid
  match env.dbInsert with
  | .error dbErr =>
      ⟨⟨500, none, .obj [("error",
          .str ("Failed to create search document: " ++ dbErr)),
        ("success", .bool false)]⟩, true, false, none⟩
  | .ok _ =>
      let arnTruthy := match env.arn with
        | some a => !a.isEmpty
        | none => false
      if arnTruthy then
        match env.sfStart with
        | .error sfErr =>
            ⟨⟨500, none, .obj [("error",
                .str ("Failed to start search execution: " ++ sfErr)),
              ("searchId", .str search_id), ("success", .bool false)]⟩,
             true, true, some user_id⟩
        | .ok resp =>
            match pyGet resp "executionArn" with
            | none =>
                ⟨⟨500, none, .obj [("error",
                    .str "Search initialization failed: KeyError executionArn"),
                  ("success", .bool false),
                  ("timestamp", .str env.now)]⟩, true, true, some user_id⟩
            | some _ =>
                ⟨⟨200, some [("Content-Type", "application/json"),
                    ("Access-Control-Allow-Origin", "*"),
                    ("Access-Control-Allow-Methods", "POST, OPTIONS"),
                    ("Access-Control-Allow-Headers", "Content-Type, Authorization")],
                  .obj [("searchId", .str search_id),
                    ("status", .str "initiated"),
                    ("message", .str "Search pipeline started successfully"),
                    ("query", query), ("flags", .obj final_flags),
                    ("success", .bool true), ("timestamp", .str env.now)]⟩,
                 true, true, some user_id⟩
      else
        ⟨⟨200, some [("Content-Type", "application/json"),
            ("Access-Control-Allow-Origin", "*"),
            ("Access-Control-Allow-Methods", "POST, OPTIONS"),
            ("Access-Control-Allow-Headers", "Content-Type, Authorization")],
          .obj [("searchId", .str search_id),
            ("status", .str "initiated"),
            ("message", .str "Search pipeline started successfully"),
            ("query", query), ("flags", .obj final_flags),
            ("success", .bool true), ("timestamp", .str env.now)]⟩,
         true, false, none⟩

/-- A 500 response of the outermost except branch of the legacy handler,
which embeds str(e) of the caught exception. -/
def legacy_catch_all (env : LegacyEnv) (msg : String) : LegacyOutcome :=
  ⟨⟨500, none, .obj [("error", .str ("Search initialization failed: " ++ msg)),
    ("success", .bool false), ("timestamp", .str env.now)]⟩,
   false, false, none⟩

/-- Embedding of the legacy lambda_handler of src/lambda_handler.py: sniff
the event shape by the presence of a body key, parse a string body with
json.loads, resolve the user id from the authorizer context with a
test_user fallback read from the body (gateway shape) or from the top-level
userId field (direct shape), validate query and user id by truthiness,
merge the default flags, and run the persistence and dispatch tail.
Exceptions the try block catches (bad JSON, attribute and type errors) are
mapped to the catch-all 500 with a representative message. -/
def legacy_lambda_handler (env : LegacyEnv) (event : JValue) : LegacyOutcome :=
  match event with
  | .obj eventFields =>
      let parsed : Except String (JValue × JValue) :=
        if (pyGet eventFields "body").isSome then
          let body0 := (pyGet eventFields "body").getD (.str "")
          let bodyStep : Except String JValue :=
            match body0 with
            | .str s =>
                match env.jsonLoads s with
                | some v => .ok v
                | none => .error "JSONDecodeError"
            | v => .ok v
          match bodyStep with
          | .error m => .error m
          | .ok body =>
              let rc := (pyGet eventFields "requestContext").getD (.obj [])
              match rc with
              | .obj rcFields =>
                  match (pyGet rcFields "authorizer").getD (.obj []) with
                  | .obj authFields =>
                      let uidAuth := (pyGet authFields "userId").getD .null
                      if pyTruthy uidAuth then .ok (body, uidAuth)
                      else
                        match body with
                        | .obj bodyFields =>
                            .ok (body,
                              (pyGet bodyFields "userId").getD (.str "test_user"))
                        | _ => .error "AttributeError: object has no attribute get"
                  | _ => .error "AttributeError: object has no attribute get"
              | _ => .error "AttributeError: object has no attribute get"
        else
          match event with
          | .obj _ => .ok (event, (pyGet eventFields "userId").getD .null)
          | _ => .error "unreachable"
      match parsed with
      | .error m => legacy_catch_all env m
      | .ok (body, user_id) =>
          match body with
          | .obj bodyFields =>
              let query := (pyGet bodyFields "query").getD .null
              let flags := (pyGet bodyFields "flags").getD (.obj [])
              if !pyTruthy query then
                ⟨⟨400, none, .obj [("error", .str "Missing required field: query"),
                  ("success", .bool false)]⟩, false, false, none⟩
              else if !pyTruthy user_id then
                ⟨⟨400, none, .obj [("error", .str "Missing user authentication"),
                  ("success", .bool false)]⟩, false, false, none⟩
              else
                match flags with
                | .obj flagFields =>
                    legacy_after_validation env user_id query
                      (pyMergeDicts default_flags flagFields)
                | _ => legacy_catch_all env
                    "TypeError: argument after double-star must be a mapping"
          | _ => legacy_catch_all env "AttributeError: object has no attribute get"
  | _ => legacy_catch_all env "TypeError: argument of type is not iterable"

/- ===== Entry Point / Response Builder (spec section 4.4) ===== -/

/-- Result of one refactored entry-point invocation, instrumented with
whether request normalization was attempted and whether the workflow
dispatcher was invoked. -/
structure RefactoredOutcome where
  response : HttpResponse
  parseAttempted : Bool
  dispatchAttempted : Bool

/-- The httpMethod field of an inbound event, when present as a string. -/
def eventHttpMethod (event : JValue) : Option String :=
  match event with
  | .obj fs =>
      match pyGet fs "httpMethod" with
      | some (.str m) => some m
      | _ => none
  | _ => none

/-- Modelled from the spec: the case-insensitive lookup of the
X-Amzn-Trace-Id header of the inbound event (spec section 6), forwarded to
the dispatcher when present. -/
def eventTraceHeader (event : JValue) : Option String :=
  match event with
  | .obj fs =>
      match (pyGet fs "headers").getD .null with
      | .obj hs =>
          match hs.find? (fun kv => kv.1.toLower = "x-amzn-trace-id") with
          | some (_, .str v) => some v
          | _ => none
      | _ => none
  | _ => none

/-- Modelled from the spec: the Entry Point / Response Builder of spec
section 4.4 together with the error taxonomy of spec section 7.  This
component is absent from src/ (src/lambda_handler.py is the legacy MongoDB
variant the spec scopes out as incidental glue); only its tests in
src/test_refactored.py are present, so it is modelled from the spec: an
OPTIONS method short-circuits to 204 with an empty body and CORS headers
before any normalization or dispatch; otherwise configuration is loaded
(500 with a generic message on failure, CORS origin falling back to star),
the event is normalized (validation error maps to 400 with the message,
any other normalization exception to a generic 500), the workflow is
dispatched (WorkflowStartError maps to 502 with a generic message), and a
success maps to 200 with the request fields, the execution identifiers and
the pipeline discriminator. -/
def refactored_lambda_handler (px : PyEnv) (envVars : List (String × String))
    (client : List (String × JValue) → Except String (List (String × JValue)))
    (search_id : String) (initiated_at : String) (event : JValue) :
    RefactoredOutcome :=
  let corsOrigin :=
    match Config.load envVars with
    | .ok c => c.corsAllowedOrigin
    | .error _ => "*"
  let corsHeaders :=
    [("Content-Type", "application/json"),
     ("Access-Control-Allow-Origin", corsOrigin),
     ("Access-Control-Allow-Methods", "POST, OPTIONS"),
     ("Access-Control-Allow-Headers", "Content-Type, Authorization")]
  if eventHttpMethod event = some "OPTIONS" then
    ⟨⟨204, some corsHeaders, .str ""⟩, false, false⟩
  else
    match Config.load envVars with
    | .error _ =>
        ⟨⟨500, some corsHeaders,
          .obj [("error", .str "Internal configuration error"),
            ("success", .bool false)]⟩, false, false⟩
    | .ok config =>
        match parse_event px config search_id initiated_at event with
        | .error (.validation m) =>
            ⟨⟨400, some corsHeaders,
              .obj [("error", .str m), ("success", .bool false)]⟩, true, false⟩
        | .error _ =>
            ⟨⟨500, some corsHeaders,
              .obj [("error", .str "Internal server error"),
                ("success", .bool false)]⟩, true, false⟩
        | .ok req =>
            let executor : StepFunctionsExecutor := ⟨config, client⟩
            match executor.start_execution px req (eventTraceHeader event) with
            | .error (.workflowStart _) =>
                ⟨⟨502, some corsHeaders,
                  .obj [("error", .str "Failed to start search workflow"),
                    ("success", .bool false)]⟩, true, true⟩
            | .error _ =>
                ⟨⟨500, some corsHeaders,
                  .obj [("error", .str "Internal server error"),
                    ("success", .bool false)]⟩, true, true⟩
            | .ok resp =>
                ⟨⟨200, some corsHeaders,
                  .obj [("searchId", .str req.search_id),
                    ("userId", req.user_id),
                    ("query", .str req.query),
                    ("flags", .obj req.flags),
                    ("executionArn", (pyGet resp "executionArn").getD .null),
                    ("executionName", (pyGet resp "executionName").getD .null),
                    ("pipeline", .str "search"),
                    ("success", .bool true),
                    ("timestamp", .str initiated_at)]⟩, true, true⟩

/- ===== Derived definitions and concrete fixtures ===== -/

/-- The sanitized user-id segment of build_execution_name: user_id truncated
to 20 characters, keeping only characters accepted by str.isalnum plus dash
and underscore. -/
def execSuffix (user_id : String) : String :=
  String.mk ((if user_id.length > 20 then strTake user_id 20 else user_id).toList.filter
    (fun c => pyIsAlnum c || c = '-' || c = '_'))

/-- Whether a value is a Python str. -/
def JValue.isStr : JValue → Bool
  | .str _ => true
  | _ => false

/-- Whether a value is a Python dict. -/
def JValue.isObj : JValue → Bool
  | .obj _ => true
  | _ => false

/-- Whether a value is a non-empty Python string. -/
def JValue.isNonEmptyStr : JValue → Bool
  | .str s => !s.isEmpty
  | _ => false

/-- A concrete stdlib instantiation for evaluating the embedding on inputs
whose events never exercise json.loads, base64 decoding or json.dumps. -/
def pxTrivial : PyEnv := ⟨fun _ => none, fun s => .ok s, fun _ => ""⟩

/-- A concrete configuration for evaluating the embedding. -/
def cfg0 : Config := ⟨"arn:sm", "search-exec", "*"⟩

/-- Direct-invocation event whose authorizer context carries the non-string
userId 123 and whose query is the string x. -/
def evAuthNonString : JValue :=
  .obj [("requestContext", .obj [("authorizer", .obj [("userId", .int 123)])]),
        ("query", .str "x")]

/-- Direct-invocation event with a userId, a query and two caller flags, one
overriding a default key and one unknown. -/
def evDirectFlags : JValue :=
  .obj [("userId", .str "u1"), ("query", .str "q"),
        ("flags", .obj [("reasoning", .bool true), ("custom", .int 7)])]

/-- The request parse_event produces for evDirectFlags with search id sid0
and timestamp ts0. -/
def req0w : SearchExecutionRequest :=
  ⟨"sid0", .str "u1", "q",
   pyMergeDicts default_flags [("reasoning", .bool true), ("custom", .int 7)], "ts0"⟩

/-- Legacy-handler collaborators for concrete evaluation: insert succeeds,
the orchestration call succeeds with an execution ARN, the state machine
identifier is configured. -/
def envLegacy0 : LegacyEnv :=
  ⟨fun _ => none, .ok (), .ok [("executionArn", .str "arn:exec")],
   some "arn:sm", "uuid0", "now0"⟩

/-- Gateway-wrapped event whose decoded body carries a non-empty query and
an explicitly empty userId, with no authorizer context. -/
def evGatewayEmptyUser : JValue :=
  .obj [("body", .obj [("query", .str "x"), ("userId", .str "")])]

/-- Gateway-wrapped event whose decoded body carries a non-empty query and
no userId key at all, with no authorizer context. -/
def evGatewayNoUser : JValue :=
  .obj [("body", .obj [("query", .str "x")])]

/-- Environment variables with only the mandatory state machine identifier
set. -/
def envVars0 : List (String × String) :=
  [("LOGICAL_SEARCH_STATE_MACHINE_ARN", "arn:sm")]

/-- A CORS preflight event. -/
def evOptions : JValue := .obj [("httpMethod", .str "OPTIONS")]

/-- A workflow client that always fails with a boto-style error message. -/
def clientBoom : List (String × JValue) → Except String (List (String × JValue)) :=
  fun _ => .error "ClientError: ExecutionAlreadyExists"

/-- A workflow client that succeeds and echoes a bogus executionName, to
show the executor overwrites it. -/
def clientEcho : List (String × JValue) → Except String (List (String × JValue)) :=
  fun _ => .ok [("executionArn", .str "arn:exec"), ("executionName", .str "bogus")]

/- ===== Helper lemmas ===== -/

theorem pyLatin1Alnum_eq_false (n : Nat) (h : n ≤ 127) : pyLatin1Alnum n = false := by
  simp only [pyLatin1Alnum, Bool.or_eq_false_iff, decide_eq_false_iff_not]
  omega

theorem pyIsAlnum_ascii (c : Char) (h : c.toNat ≤ 127) :
    pyIsAlnum c = c.isAlphanum := by
  simp [pyIsAlnum, pyLatin1Alnum_eq_false c.toNat h]

theorem pyGet_append {α : Type} (xs ys : List (String × α)) (k : String) :
    pyGet (xs ++ ys) k =
      match pyGet xs k with
      | some v => some v
      | none => pyGet ys k := by
  induction xs with
  | nil => rfl
  | cons kv rest ih =>
      by_cases h : kv.1 = k <;> simp [pyGet, h, ih]

theorem pyGet_map_override (d f : List (String × JValue)) (k : String) :
    pyGet (d.map (fun kv => (kv.1, (pyGet f kv.1).getD kv.2))) k
      = (pyGet d k).map (fun v => (pyGet f k).getD v) := by
  induction d with
  | nil => rfl
  | cons kv rest ih =>
      by_cases h : kv.1 = k <;> simp [pyGet, h, ih]

theorem pyGet_filter_none (d f : List (String × JValue)) (k : String)
    (h : pyGet d k = none) :
    pyGet (f.filter (fun kv => (pyGet d kv.1).isNone)) k = pyGet f k := by
  induction f with
  | nil => rfl
  | cons kv rest ih =>
      by_cases hk : kv.1 = k
      · have hd : pyGet d kv.1 = none := by rw [hk]; exact h
        simp [List.filter_cons, h, hd, pyGet, hk]
      · by_cases hkeep : (pyGet d kv.1).isNone = true <;>
          simp [List.filter_cons, hkeep, pyGet, hk, ih]

theorem pyGet_filter_some (d f : List (String × JValue)) (k : String) (v : JValue)
    (h : pyGet d k = some v) :
    pyGet (f.filter (fun kv => (pyGet d kv.1).isNone)) k = none := by
  induction f with
  | nil => rfl
  | cons kv rest ih =>
      by_cases hk : kv.1 = k
      · have hd : pyGet d kv.1 = some v := by rw [hk]; exact h
        simp [List.filter_cons, h, hd, pyGet, hk, ih]
      · by_cases hkeep : (pyGet d kv.1).isNone = true <;>
          simp [List.filter_cons, hkeep, pyGet, hk, ih]

/-- Lookup in a Python dict merge: the value from the override dict when its
key is present, the value from the base dict otherwise. -/
theorem pyGet_pyMergeDicts (d f : List (String × JValue)) (k : String) :
    pyGet (pyMergeDicts d f) k =
      match pyGet f k with
      | some v => some v
      | none => pyGet d k := by
  unfold pyMergeDicts
  rw [pyGet_append, pyGet_map_override]
  cases hd : pyGet d k with
  | none =>
      rw [pyGet_filter_none d f k hd]
      cases pyGet f k <;> simp
  | some v =>
      rw [pyGet_filter_some d f k v hd]
      cases pyGet f k <;> simp

theorem pyGet_map_setkey (d : List (String × JValue)) (k : String) (v : JValue)
    (h : (pyGet d k).isSome = true) :
    pyGet (d.map (fun kv => if kv.1 = k then (k, v) else kv)) k = some v := by
  induction d with
  | nil => simp [pyGet] at h
  | cons kv rest ih =>
      by_cases hk : kv.1 = k
      · simp [pyGet, hk]
      · simp [pyGet, hk] at h
        simp [pyGet, hk, ih h]

theorem pyGet_pySetItem_self (d : List (String × JValue)) (k : String) (v : JValue) :
    pyGet (pySetItem d k v) k = some v := by
  unfold pySetItem
  by_cases h : (pyGet d k).isSome = true
  · rw [if_pos h]
    exact pyGet_map_setkey d k v h
  · rw [if_neg h]
    rw [pyGet_append]
    have hn : pyGet d k = none := by
      cases hg : pyGet d k with
      | none => rfl
      | some w => rw [hg] at h; simp at h
    rw [hn]
    simp [pyGet]

theorem pyTruthy_str_ne (s : String) (h : pyTruthy (.str s) = true) : s ≠ "" := by
  intro he
  subst he
  exact absurd h (by decide)

theorem require_ok (payload : List (String × JValue)) (k s : String)
    (h : require_non_empty_string payload k = .ok s) : s ≠ "" := by
  unfold require_non_empty_string at h
  split at h
  · cases h
  · cases h
  · split at h
    · cases h
    · next hb =>
        cases h
        exact hb

theorem resolve_user_id_ok (bodyFields : List (String × JValue))
    (uidRaw uid : JValue)
    (h : resolve_user_id bodyFields uidRaw = .ok uid) :
    ∀ s, uid = .str s → s ≠ "" := by
  unfold resolve_user_id at h
  split at h
  · next ht =>
      cases h
      intro s hs
      rw [hs] at ht
      exact pyTruthy_str_ne s ht
  · split at h
    · next s' hr =>
        cases h
        intro s hs
        cases hs
        exact require_ok bodyFields "userId" s' hr
    · cases h

/-- Destructuring of a successful parse_event run into the results of its
intermediate steps. -/
theorem parse_event_ok_shape (px : PyEnv) (config : Config) (sid ts : String)
    (event : JValue) (req : SearchExecutionRequest)
    (h : parse_event px config sid ts event = .ok req) :
    ∃ eventFields bodyFields uidRaw uid fs,
      event = .obj eventFields
      ∧ extract_body px event = .ok (.obj bodyFields)
      ∧ authorizer_user_id eventFields = .ok uidRaw
      ∧ resolve_user_id bodyFields uidRaw = .ok uid
      ∧ require_non_empty_string bodyFields "query" = .ok req.query
      ∧ (pyGet bodyFields "flags").getD (.obj []) = .obj fs
      ∧ req = ⟨sid, uid, req.query, pyMergeDicts default_flags fs, ts⟩ := by
  unfold parse_event at h
  repeat' split at h
  all_goals try exact Except.noConfusion h
  cases h
  exact ⟨_, _, _, _, _, rfl, by assumption, by assumption, by assumption,
    by assumption, by assumption, rfl⟩

/- ===== C1 ===== -/

/-- C1 counterexample: for the Unicode user id composed of the single letter
e-acute, CPython str.isalnum keeps the character, so the output of
build_execution_name ends in a character outside the class of ASCII
alphanumerics, dash and underscore, contradicting the claimed output
pattern. -/
theorem build_execution_name_unicode_cx :
    build_execution_name "search-exec" "abcdefgh" "é"
        = "search-exec" ++ "-" ++ "abcdefgh" ++ "-" ++ "é"
    ∧ (("é" : String).toList.all (fun c => c.isAlphanum || c = '-' || c = '_')) = false := by
  decide

/-- C1 (amended): build_execution_name always equals the prefix, a dash, the
first 8 characters of the search id, a dash, and a sanitized suffix of at
most 20 characters each accepted by str.isalnum or equal to dash or
underscore; when the user id is ASCII the suffix stays within the ASCII
class of alphanumerics, dash and underscore; and the output length is at
most the prefix length plus 30. -/
theorem build_execution_name_spec (pfx s u : String) :
    build_execution_name pfx s u = pfx ++ "-" ++ strTake s 8 ++ "-" ++ execSuffix u
    ∧ ((execSuffix u).toList.all (fun c => pyIsAlnum c || c = '-' || c = '_')) = true
    ∧ ((u.toList.all (fun c => c.toNat ≤ 127)) = true →
        ((execSuffix u).toList.all (fun c => c.isAlphanum || c = '-' || c = '_')) = true)
    ∧ (build_execution_name pfx s u).length ≤ pfx.length + 1 + 8 + 1 + 20 := by
  refine ⟨rfl, ?_, ?_, ?_⟩
  · simp only [execSuffix, String.toList, String.mk, List.all_eq_true]
    intro c hc
    exact (List.mem_filter.mp hc).2
  · intro hAscii
    simp only [execSuffix, String.toList, String.mk, List.all_eq_true]
    intro c hc
    have hmem := (List.mem_filter.mp hc).1
    have hpred := (List.mem_filter.mp hc).2
    have hcu : c ∈ u.toList := by
      by_cases hl : u.length > 20
      · simp only [hl, if_true, strTake] at hmem
        exact List.mem_of_mem_take hmem
      · simpa [hl] using hmem
    have hle : c.toNat ≤ 127 := by
      rw [List.all_eq_true] at hAscii
      exact of_decide_eq_true (hAscii c hcu)
    rw [pyIsAlnum_ascii c hle] at hpred
    exact hpred
  · show (pfx ++ "-" ++ strTake s 8 ++ "-" ++ execSuffix u).length ≤ _
    have h8 : (strTake s 8).length ≤ 8 := by
      simp only [strTake]
      calc (String.mk (s.toList.take 8)).length = (s.toList.take 8).length := rfl
        _ ≤ 8 := by rw [List.length_take]; omega
    have h20 : (execSuffix u).length ≤ 20 := by
      simp only [execSuffix]
      by_cases hl : u.length > 20
      · rw [if_pos hl]
        simp only [strTake]
        calc (String.mk ((String.mk (u.toList.take 20)).toList.filter _)).length
            = ((u.toList.take 20).filter _).length := rfl
          _ ≤ (u.toList.take 20).length := List.length_filter_le _ _
          _ ≤ 20 := by rw [List.length_take]; omega
      · rw [if_neg hl]
        calc (String.mk (u.toList.filter _)).length
            = (u.toList.filter _).length := rfl
          _ ≤ u.toList.length := List.length_filter_le _ _
          _ ≤ 20 := by
              have hlen : u.toList.length = u.length := rfl
              omega
    simp only [String.length_append]
    have h1 : ("-" : String).length = 1 := rfl
    omega

/-- C1 witness: the amended statement evaluated at a concrete input. -/
theorem build_execution_name_spec_witness :
    (build_execution_name "search-exec" "abcdefgh12" "user name!").length ≤
      "search-exec".length + 1 + 8 + 1 + 20 :=
  (build_execution_name_spec "search-exec" "abcdefgh12" "user name!").2.2.2

/- ===== C8 ===== -/

/-- C8: Config.load raises ConfigurationError exactly when the mandatory
state machine identifier environment variable is absent or blank after
stripping; any raised error is that ConfigurationError; and a successful
load takes the documented defaults for the execution-name prefix and the
CORS origin when their environment variables are unset. -/
theorem config_load_spec (env : List (String × String)) :
    ((∃ e, Config.load env = .error e) ↔
      (pyGet env "LOGICAL_SEARCH_STATE_MACHINE_ARN" = none
       ∨ ∃ s, pyGet env "LOGICAL_SEARCH_STATE_MACHINE_ARN" = some s ∧ pyStrip s = ""))
    ∧ (∀ e, Config.load env = .error e →
        e = .configuration
          "LOGICAL_SEARCH_STATE_MACHINE_ARN environment variable is required")
    ∧ (∀ c, Config.load env = .ok c →
        (pyGet env "EXECUTION_NAME_PREFIX" = none →
          c.executionNamePrefix = "search-exec")
        ∧ (pyGet env "CORS_ALLOWED_ORIGIN" = none →
          c.corsAllowedOrigin = "*")) := by
  refine ⟨?_, ?_, ?_⟩
  · by_cases hb : pyStrip (pyGetenv env "LOGICAL_SEARCH_STATE_MACHINE_ARN" "") = ""
    · constructor
      · intro _
        cases hg : pyGet env "LOGICAL_SEARCH_STATE_MACHINE_ARN" with
        | none => exact Or.inl rfl
        | some s =>
            refine Or.inr ⟨s, rfl, ?_⟩
            have hv : pyGetenv env "LOGICAL_SEARCH_STATE_MACHINE_ARN" "" = s := by
              simp [pyGetenv, hg]
            rw [hv] at hb
            exact hb
      · intro _
        exact ⟨.configuration
          "LOGICAL_SEARCH_STATE_MACHINE_ARN environment variable is required",
          by simp [Config.load, hb]⟩
    · constructor
      · rintro ⟨e, he⟩
        simp [Config.load, hb] at he
      · rintro (hg | ⟨s, hg, hstrip⟩)
        · refine absurd ?_ hb
          have hv : pyGetenv env "LOGICAL_SEARCH_STATE_MACHINE_ARN" "" = "" := by
            simp [pyGetenv, hg]
          rw [hv]
          decide
        · refine absurd ?_ hb
          have hv : pyGetenv env "LOGICAL_SEARCH_STATE_MACHINE_ARN" "" = s := by
            simp [pyGetenv, hg]
          rw [hv]
          exact hstrip
  · intro e he
    unfold Config.load at he
    by_cases hb : pyStrip (pyGetenv env "LOGICAL_SEARCH_STATE_MACHINE_ARN" "") = ""
    · rw [if_pos hb] at he
      cases he
      rfl
    · rw [if_neg hb] at he
      cases he
  · intro c hc
    unfold Config.load at hc
    by_cases hb : pyStrip (pyGetenv env "LOGICAL_SEARCH_STATE_MACHINE_ARN" "") = ""
    · rw [if_pos hb] at hc
      cases hc
    · rw [if_neg hb] at hc
      cases hc
      exact ⟨fun hp => by simp [pyGetenv, hp], fun hco => by simp [pyGetenv, hco]⟩

/-- C8 witness: a whitespace-padded identifier loads successfully with both
defaults applied, and the stripped identifier is stored. -/
theorem config_load_spec_witness :
    Config.load [("LOGICAL_SEARCH_STATE_MACHINE_ARN", " arn:sm ")]
        = .ok ⟨"arn:sm", "search-exec", "*"⟩
    ∧ ("search-exec" : String) = "search-exec" ∧ ("*" : String) = "*" := by
  have h := (config_load_spec
    [("LOGICAL_SEARCH_STATE_MACHINE_ARN", " arn:sm ")]).2.2
    ⟨"arn:sm", "search-exec", "*"⟩ rfl
  exact ⟨rfl, h.1 rfl, h.2 rfl⟩

/- ===== C10 ===== -/

/-- C10: _require_non_empty_string accepts any non-None value whose str()
rendering is non-blank after stripping and returns the stripped rendering;
in particular the int 123 yields the string 123 and the bool False yields
the string False. -/
theorem require_non_empty_string_stringifies :
    (∀ payload k v, pyGet payload k = some v → v ≠ JValue.null →
       pyStrip (pyStr v) ≠ "" →
       require_non_empty_string payload k = .ok (pyStrip (pyStr v)))
    ∧ require_non_empty_string [("query", JValue.int 123)] "query" = .ok "123"
    ∧ require_non_empty_string [("userId", JValue.bool false)] "userId"
        = .ok "False" := by
  refine ⟨?_, rfl, rfl⟩
  intro payload k v hv hnull hne
  unfold require_non_empty_string
  rw [hv]
  cases v with
  | null => exact absurd rfl hnull
  | bool b => simp [hne]
  | int n => simp [hne]
  | str s => simp [hne]
  | arr xs => simp [hne]
  | obj fs => simp [hne]

/-- C10 witness: the general statement evaluated at a concrete non-string
value. -/
theorem require_non_empty_string_stringifies_witness :
    require_non_empty_string [("query", JValue.int 7)] "query" = .ok "7" :=
  require_non_empty_string_stringifies.1 [("query", JValue.int 7)] "query"
    (JValue.int 7) rfl (fun h => JValue.noConfusion h) (by decide)

/- ===== C6 ===== -/

/-- C6: in body extraction, a base64-flagged string body is decoded and then
handled exactly as the decoded text; a (decoded) text that is blank after
stripping yields the empty dict with no error; a non-blank text that fails
JSON parsing yields the valid-JSON validation error; and a body value that
is neither a string nor a dict yields the unsupported-format validation
error. -/
theorem extract_body_cases (px : PyEnv) :
    (∀ fields s t, pyGet fields "body" = some (.str s) →
       pyTruthy ((pyGet fields "isBase64Encoded").getD .null) = true →
       px.b64decodeUtf8 s = .ok t →
       extract_body px (.obj fields) = parseBodyStr px t)
    ∧ (∀ t, pyStrip t = "" → parseBodyStr px t = .ok (.obj []))
    ∧ (∀ t, pyStrip t ≠ "" → px.jsonLoads (pyStrip t) = none →
        parseBodyStr px t = .error (.validation "Request body must be valid JSON"))
    ∧ (∀ fields v, pyGet fields "body" = some v →
        v.isStr = false → v.isObj = false →
        extract_body px (.obj fields) =
          .error (.validation "Unsupported request body format")) := by
  refine ⟨?_, ?_, ?_, ?_⟩
  · intro fields s t hb hflag hdec
    simp only [extract_body]
    rw [hb]
    simp [hflag, hdec]
  · intro t ht
    unfold parseBodyStr
    rw [ht]
    simp
  · intro t ht hj
    unfold parseBodyStr
    rw [if_neg ht, hj]
  · intro fields v hb hs ho
    simp only [extract_body]
    rw [hb]
    cases hflag : pyTruthy ((pyGet fields "isBase64Encoded").getD .null) <;>
      cases v <;> simp_all [JValue.isStr, JValue.isObj]

/-- C6 witness: the four statements evaluated on concrete bodies: a base64
flagged body decoding to blank text yields the empty dict, a non-JSON text
yields the valid-JSON error, and an int body yields the unsupported-format
error. -/
theorem extract_body_cases_witness :
    extract_body pxTrivial (.obj [("body", .str "  "), ("isBase64Encoded", .bool true)])
        = .ok (.obj [])
    ∧ parseBodyStr pxTrivial "not json"
        = .error (.validation "Request body must be valid JSON")
    ∧ extract_body pxTrivial (.obj [("body", .int 5)])
        = .error (.validation "Unsupported request body format") := by
  refine ⟨?_, ?_, ?_⟩
  · rw [(extract_body_cases pxTrivial).1 [("body", .str "  "), ("isBase64Encoded", .bool true)]
      "  " "  " rfl rfl rfl]
    exact (extract_body_cases pxTrivial).2.1 "  " rfl
  · exact (extract_body_cases pxTrivial).2.2.1 "not json" (by decide) rfl
  · exact (extract_body_cases pxTrivial).2.2.2 [("body", .int 5)] (.int 5) rfl rfl rfl

/- ===== C2 ===== -/

/-- C2 (entry point modelled from the spec, see refactored_lambda_handler):
an OPTIONS event yields a 204 response with an empty body and CORS headers,
with normalization not attempted and the workflow dispatcher not invoked. -/
theorem options_preflight_204 (px : PyEnv) (envVars : List (String × String))
    (client : List (String × JValue) → Except String (List (String × JValue)))
    (sid ts : String) (event : JValue)
    (h : eventHttpMethod event = some "OPTIONS") :
    (refactored_lambda_handler px envVars client sid ts event).response.statusCode = 204
    ∧ (refactored_lambda_handler px envVars client sid ts event).response.body = .str ""
    ∧ (∃ origin,
        (refactored_lambda_handler px envVars client sid ts event).response.headers
          = some [("Content-Type", "application/json"),
              ("Access-Control-Allow-Origin", origin),
              ("Access-Control-Allow-Methods", "POST, OPTIONS"),
              ("Access-Control-Allow-Headers", "Content-Type, Authorization")])
    ∧ (refactored_lambda_handler px envVars client sid ts event).parseAttempted = false
    ∧ (refactored_lambda_handler px envVars client sid ts event).dispatchAttempted
        = false := by
  simp only [refactored_lambda_handler, h, if_pos]
  exact ⟨trivial, trivial, ⟨_, rfl⟩, trivial, trivial⟩

/-- C2 witness: the OPTIONS statement evaluated at a concrete event. -/
theorem options_preflight_204_witness :
    (refactored_lambda_handler pxTrivial envVars0 clientBoom "sid" "ts"
        evOptions).response.statusCode = 204
    ∧ (refactored_lambda_handler pxTrivial envVars0 clientBoom "sid" "ts"
        evOptions).dispatchAttempted = false :=
  ⟨(options_preflight_204 pxTrivial envVars0 clientBoom "sid" "ts" evOptions rfl).1,
   (options_preflight_204 pxTrivial envVars0 clientBoom "sid" "ts" evOptions rfl).2.2.2.2⟩

/- ===== C3 ===== -/

/-- C3 (entry point modelled from the spec, see refactored_lambda_handler):
when the workflow-start call fails, the response is a 502 whose body is the
fixed generic message with success false; the body is a constant, so it
carries none of the underlying error detail. -/
theorem dispatch_failure_502 (px : PyEnv) (envVars : List (String × String))
    (client : List (String × JValue) → Except String (List (String × JValue)))
    (sid ts : String) (event : JValue) (config : Config)
    (req : SearchExecutionRequest) (m : String)
    (hm : ¬ eventHttpMethod event = some "OPTIONS")
    (hc : Config.load envVars = .ok config)
    (hp : parse_event px config sid ts event = .ok req)
    (hd : StepFunctionsExecutor.start_execution px ⟨config, client⟩ req
        (eventTraceHeader event) = .error (.workflowStart m)) :
    (refactored_lambda_handler px envVars client sid ts event).response.statusCode = 502
    ∧ (refactored_lambda_handler px envVars client sid ts event).response.body
        = .obj [("error", .str "Failed to start search workflow"),
            ("success", .bool false)]
    ∧ (refactored_lambda_handler px envVars client sid ts event).dispatchAttempted
        = true := by
  simp only [refactored_lambda_handler, hm, if_neg, hc, hp, hd]
  exact ⟨rfl, rfl, rfl⟩

/-- C3 witness: the dispatch-failure statement evaluated at a concrete event
with a failing client. -/
theorem dispatch_failure_502_witness :
    (refactored_lambda_handler pxTrivial envVars0 clientBoom "sid0" "ts0"
        evDirectFlags).response.statusCode = 502
    ∧ (refactored_lambda_handler pxTrivial envVars0 clientBoom "sid0" "ts0"
        evDirectFlags).response.body
      = .obj [("error", .str "Failed to start search workflow"),
          ("success", .bool false)] :=
  ⟨(dispatch_failure_502 pxTrivial envVars0 clientBoom "sid0" "ts0" evDirectFlags
      cfg0 req0w "ClientError: ExecutionAlreadyExists" (by decide) rfl rfl rfl).1,
   (dispatch_failure_502 pxTrivial envVars0 clientBoom "sid0" "ts0" evDirectFlags
      cfg0 req0w "ClientError: ExecutionAlreadyExists" (by decide) rfl rfl rfl).2.1⟩

/- ===== C9 ===== -/

/-- C9 counterexample: a gateway-wrapped event (its body key is present)
whose body carries an explicitly empty userId and no authorizer context
reaches the 400 Missing user authentication response, so that branch is not
reserved to direct-invocation events. -/
theorem legacy_missing_auth_cx :
    (legacy_lambda_handler envLegacy0 evGatewayEmptyUser).response.statusCode = 400
    ∧ (legacy_lambda_handler envLegacy0 evGatewayEmptyUser).response.body
        = .obj [("error", .str "Missing user authentication"),
            ("success", .bool false)]
    ∧ (pyGet [("body", JValue.obj [("query", .str "x"), ("userId", .str "")])]
        "body").isSome = true :=
  ⟨rfl, rfl, rfl⟩

/-- C9 (amended): for a gateway-wrapped event whose body has a truthy query
and lacks the userId key entirely, with no request context, the legacy
handler substitutes the literal test_user id and proceeds to dispatch
whenever the document insert succeeds and a state machine is configured;
the missing-user 400 remains reachable for gateway events only through an
explicitly falsy body userId value. -/
theorem legacy_gateway_test_user (env : LegacyEnv)
    (eventFields bodyFields : List (String × JValue)) (q : JValue) (a : String)
    (hbody : pyGet eventFields "body" = some (.obj bodyFields))
    (hrc : pyGet eventFields "requestContext" = none)
    (huid : pyGet bodyFields "userId" = none)
    (hq : pyGet bodyFields "query" = some q)
    (hqt : pyTruthy q = true)
    (hff : ∃ ff, (pyGet bodyFields "flags").getD (.obj []) = .obj ff)
    (hdb : env.dbInsert = .ok ())
    (harn : env.arn = some a) (ha : a ≠ "") :
    (legacy_lambda_handler env (.obj eventFields)).sfCalled = true
    ∧ (legacy_lambda_handler env (.obj eventFields)).sfInputUserId
        = some (.str "test_user")
    ∧ ¬ (legacy_lambda_handler env (.obj eventFields)).response.statusCode = 400 := by
  obtain ⟨ff, hffv⟩ := hff
  have hae : (!a.isEmpty) = true := by
    cases hb : a.isEmpty with
    | false => rfl
    | true => exact absurd ((String.isEmpty_iff a).mp hb) ha
  have hpg1 : pyGet ([] : List (String × JValue)) "authorizer" = none := rfl
  have hpg2 : pyGet ([] : List (String × JValue)) "userId" = none := rfl
  have hnull : pyTruthy JValue.null = false := rfl
  have htu : pyTruthy (JValue.str "test_user") = true := by decide
  have hred : (legacy_lambda_handler env (.obj eventFields))
      = legacy_after_validation env (.str "test_user") q
          (pyMergeDicts default_flags ff) := by
    simp [legacy_lambda_handler, hbody, hrc, huid, hq, hqt, hffv, hpg1, hpg2,
      hnull, htu]
  rw [hred]
  unfold legacy_after_validation
  simp [hdb, harn, hae]
  cases hsf : env.sfStart with
  | error m => simp
  | ok resp => cases hax : pyGet resp "executionArn" <;> simp [hax]

/-- C9 witness: the amended statement evaluated at a concrete gateway event
whose body has a query and no userId. -/
theorem legacy_gateway_test_user_witness :
    (legacy_lambda_handler envLegacy0 evGatewayNoUser).sfCalled = true
    ∧ (legacy_lambda_handler envLegacy0 evGatewayNoUser).sfInputUserId
        = some (.str "test_user") :=
  ⟨(legacy_gateway_test_user envLegacy0 [("body", .obj [("query", .str "x")])]
      [("query", .str "x")] (.str "x") "arn:sm" rfl rfl rfl rfl rfl ⟨[], rfl⟩
      rfl rfl (by decide)).1,
   (legacy_gateway_test_user envLegacy0 [("body", .obj [("query", .str "x")])]
      [("query", .str "x")] (.str "x") "arn:sm" rfl rfl rfl rfl rfl ⟨[], rfl⟩
      rfl rfl (by decide)).2.1⟩

/- ===== C4 ===== -/

/-- C4: every request parse_event accepts carries a flags dict that is the
shallow merge of the six defaults under the caller flags: all six default
keys are present, any caller-supplied key (known or unknown) keeps the
caller value, and any default key the caller did not supply keeps its
default value. -/
theorem parse_event_flags_merge (px : PyEnv) (config : Config)
    (sid ts : String) (event : JValue) (req : SearchExecutionRequest)
    (h : parse_event px config sid ts event = .ok req) :
    ∃ fs : List (String × JValue),
      req.flags = pyMergeDicts default_flags fs
      ∧ (pyGet req.flags "hyde_provider").isSome = true
      ∧ (pyGet req.flags "description_provider").isSome = true
      ∧ (pyGet req.flags "reasoning_model").isSome = true
      ∧ (pyGet req.flags "alternative_skills").isSome = true
      ∧ (pyGet req.flags "reasoning").isSome = true
      ∧ (pyGet req.flags "fallback").isSome = true
      ∧ (∀ k v, pyGet fs k = some v → pyGet req.flags k = some v)
      ∧ (∀ k, pyGet fs k = none → pyGet req.flags k = pyGet default_flags k) := by
  obtain ⟨ef, bf, uidRaw, uid, fs, _, _, _, _, _, _, hreq⟩ :=
    parse_event_ok_shape px config sid ts event req h
  have hflags : req.flags = pyMergeDicts default_flags fs := by rw [hreq]
  refine ⟨fs, hflags, ?_, ?_, ?_, ?_, ?_, ?_, ?_, ?_⟩
  · rw [hflags, pyGet_pyMergeDicts]
    cases pyGet fs "hyde_provider" <;> simp [default_flags, pyGet]
  · rw [hflags, pyGet_pyMergeDicts]
    cases pyGet fs "description_provider" <;> simp [default_flags, pyGet]
  · rw [hflags, pyGet_pyMergeDicts]
    cases pyGet fs "reasoning_model" <;> simp [default_flags, pyGet]
  · rw [hflags, pyGet_pyMergeDicts]
    cases pyGet fs "alternative_skills" <;> simp [default_flags, pyGet]
  · rw [hflags, pyGet_pyMergeDicts]
    cases pyGet fs "reasoning" <;> simp [default_flags, pyGet]
  · rw [hflags, pyGet_pyMergeDicts]
    cases pyGet fs "fallback" <;> simp [default_flags, pyGet]
  · intro k v hk
    rw [hflags, pyGet_pyMergeDicts, hk]
  · intro k hk
    rw [hflags, pyGet_pyMergeDicts, hk]

/-- C4 witness: for a direct event overriding the reasoning flag and adding
an unknown custom flag, the parsed flags keep the override, keep the
unknown key, and keep an unsupplied default. -/
theorem parse_event_flags_merge_witness :
    pyGet req0w.flags "reasoning" = some (JValue.bool true)
    ∧ pyGet req0w.flags "custom" = some (JValue.int 7)
    ∧ pyGet req0w.flags "hyde_provider" = some (JValue.str "groq_llama") := by
  obtain ⟨fs, hm, h1, h2, h3, h4, h5, h6, hover, hdef⟩ :=
    parse_event_flags_merge pxTrivial cfg0 "sid0" "ts0" evDirectFlags req0w rfl
  exact ⟨rfl, rfl, rfl⟩

/- ===== C5 ===== -/

/-- C5 counterexample: a direct-invocation event whose authorizer context
carries the truthy non-string userId 123 parses successfully, yet the
returned user_id is the int 123, not a non-empty string. -/
theorem parse_event_nonstring_user_cx :
    (parse_event pxTrivial cfg0 "sid1" "ts1" evAuthNonString).map
        (fun r => r.user_id) = .ok (.int 123)
    ∧ (parse_event pxTrivial cfg0 "sid1" "ts1" evAuthNonString).map
        (fun r => r.user_id.isNonEmptyStr) = .ok false := by
  exact ⟨rfl, rfl⟩

/-- C5 (amended): the required-field validator raises the is-required
message when the field is absent and the cannot-be-empty message when the
value is present, non-None and blank after str() and strip(); and a request
parse_event returns has a non-empty query string, while its user_id is
non-empty whenever it is a string (a truthy non-string authorizer value is
passed through unchanged). -/
theorem parse_event_validation_spec :
    (∀ payload k, pyGet payload k = none →
       require_non_empty_string payload k
         = .error (.validation (k ++ " is required")))
    ∧ (∀ payload k v, pyGet payload k = some v → v ≠ JValue.null →
        pyStrip (pyStr v) = "" →
        require_non_empty_string payload k
          = .error (.validation (k ++ " cannot be empty")))
    ∧ (∀ px config sid ts event req,
        parse_event px config sid ts event = .ok req →
        req.query ≠ "" ∧ ∀ s, req.user_id = .str s → s ≠ "") := by
  refine ⟨?_, ?_, ?_⟩
  · intro payload k hk
    unfold require_non_empty_string
    rw [hk]
  · intro payload k v hv hnull hb
    unfold require_non_empty_string
    rw [hv]
    cases v with
    | null => exact absurd rfl hnull
    | bool b => simp [hb]
    | int n => simp [hb]
    | str s => simp [hb]
    | arr xs => simp [hb]
    | obj fs => simp [hb]
  · intro px config sid ts event req h
    obtain ⟨ef, bf, uidRaw, uid, fs, _, _, _, hres, hq, _, hreq⟩ :=
      parse_event_ok_shape px config sid ts event req h
    constructor
    · exact require_ok bf "query" req.query hq
    · intro s hs
      have huid : req.user_id = uid := by rw [hreq]
      exact resolve_user_id_ok bf uidRaw uid hres s (huid ▸ hs)

/-- C5 witness: the amended statement evaluated at concrete payloads: a
missing query is reported as required, a blank query as empty. -/
theorem parse_event_validation_spec_witness :
    require_non_empty_string [("flags", JValue.obj [])] "query"
        = .error (.validation "query is required")
    ∧ require_non_empty_string [("query", JValue.str " ")] "query"
        = .error (.validation "query cannot be empty") :=
  ⟨parse_event_validation_spec.1 [("flags", JValue.obj [])] "query" rfl,
   parse_event_validation_spec.2.1 [("query", JValue.str " ")] "query"
     (JValue.str " ") rfl (fun hx => JValue.noConfusion hx) (by decide)⟩

/- ===== C7 ===== -/

/-- C7: on any successful start_execution call, the executionName field of
the returned dict is exactly build_execution_name applied to the configured
prefix, the request search id and the request user id, regardless of the
content of the response the client produced. -/
theorem start_execution_name (px : PyEnv) (e : StepFunctionsExecutor)
    (req : SearchExecutionRequest) (th : Option String) (uid : String)
    (result : List (String × JValue))
    (hu : req.user_id = .str uid)
    (hr : e.start_execution px req th = .ok result) :
    pyGet result "executionName" =
      some (.str (build_execution_name e.config.executionNamePrefix
        req.search_id uid)) := by
  simp only [StepFunctionsExecutor.start_execution, hu] at hr
  cases hcl : e.client (sfParams px e req uid th) with
  | error m => rw [hcl] at hr; cases hr
  | ok resp =>
      rw [hcl] at hr
      cases hr
      exact pyGet_pySetItem_self resp "executionName" _

/-- C7 witness: a client that echoes a bogus executionName is overridden by
the derived name. -/
theorem start_execution_name_witness :
    pyGet [("executionArn", JValue.str "arn:exec"),
        ("executionName", .str "search-exec-sid0-u1")] "executionName"
      = some (.str (build_execution_name "search-exec" "sid0" "u1")) := by
  have h := start_execution_name pxTrivial ⟨cfg0, clientEcho⟩ req0w none "u1"
    (pySetItem [("executionArn", .str "arn:exec"), ("executionName", .str "bogus")]
      "executionName" (.str (build_execution_name "search-exec" "sid0" "u1")))
    rfl rfl
  exact h
